import Mathlib

/-
Verification of the coredns unbound plugin core (src/unbound.go, src/setup.go).

Shallow embedding conventions:
* The external libunbound contexts (the fields u.u and u.t of the Go struct
  Unbound) are not modelled as state; instead every operation that calls into
  a context takes the context response (an optional error, or an optional
  result plus optional error) as an explicit argument, and records the calls
  it makes in a trace of CtxCall values.
* Go nil pointers are Option.none; a nil-pointer dereference makes the whole
  computation evaluate to none (a panic).
* Go error values are Option String (none = nil error, some msg = error with
  message msg). The %q format verb of fmt is modelled as plain quote wrapping
  (the strings involved carry no characters that %q would escape).
* Machine integers appearing here (rcode, record types, message id) are small
  DNS protocol constants far below any overflow boundary; they are modelled
  as Nat. The round-trip time is modelled as an integer number of
  nanoseconds; the conversion to floating seconds done by Rtt.Seconds() is
  irrelevant to the properties below, so the raw value is recorded.
-/

namespace UB

/-- A resource record, reduced to the fields the plugin inspects: its type
code (dns.OPT is type 41, the DNSSEC types are 43, 46, 47, 48, 50, 51) and an
opaque payload that keeps distinct records distinct. -/
structure RR where
  rrtype : Nat
  rdata : String
deriving DecidableEq, Repr

/-- One entry of the question section of a dns.Msg. -/
structure DNSQuestion where
  qname : String
  qtype : Nat
  qclass : Nat
deriving DecidableEq, Repr

/-- The fields of miekg dns.Msg that src/unbound.go reads or writes.
question is an Option because the Go code compares the Question slice
against nil (a nil slice differs from an empty one). -/
structure Msg where
  id : Nat
  rcode : Nat
  question : Option (List DNSQuestion)
  answer : List RR
  ns : List RR
  extra : List RR
deriving DecidableEq, Repr

/-- The fields of unbound.Result (go-libunbound) that ServeDNS reads.
answerPacket is a pointer in Go, hence an Option here. -/
structure UbResult where
  answerPacket : Option Msg
  rtt : Int
  bogus : Bool
  whyBogus : String
deriving DecidableEq, Repr

/-- The plugin struct from src/unbound.go, keeping the fields that carry
state visible to this layer. The Go field from is named fromZones because
from is a Lean keyword; u, t (the libunbound contexts) and Next are
externals modelled through Env. -/
structure Unbound where
  fromZones : List String
  except : List String
  strict : Bool
deriving DecidableEq, Repr

/-- The per-request data ServeDNS reads off the request.Request state:
transport protocol, question name/type/class, the DO bit of the requester
(state.Do()) and the query id. -/
structure Request where
  proto : String
  qname : String
  qtype : Nat
  qclass : Nat
  doBit : Bool
  id : Nat
deriving DecidableEq, Repr

/-- One metrics side effect: an increment of the RcodeCount counter or an
observation of the RequestDuration histogram (carrying the raw rtt). -/
inductive Metric where
  | rcodeCount (server : String) (rc : String)
  | requestDuration (server : String) (rttNs : Int)
deriving DecidableEq, Repr

/-- The observable outcome of one ServeDNS call: the returned int code and
error, the metrics emitted, and the message written to the requester (none
when no WriteMsg happened). -/
structure ServeResult where
  rcode : Nat
  err : Option String
  metrics : List Metric
  written : Option Msg
deriving DecidableEq, Repr

/-- Per-query environment: the server identity label (metrics.WithServer),
what each libunbound context would return for this query, and what the next
plugin in the chain returns on the pass-through path. -/
structure Env where
  server : String
  udpRes : Option UbResult
  udpErr : Option String
  tcpRes : Option UbResult
  tcpErr : Option String
  nextRcode : Nat
  nextErr : Option String
deriving DecidableEq, Repr

/-- dns.RcodeServerFailure. -/
def RcodeServerFailure : Nat := 2

/-- The dns.RcodeToString map of miekg/dns, as a partial function. -/
def RcodeToString (rcode : Nat) : Option String :=
  match rcode with
  | 0 => some "NOERROR"
  | 1 => some "FORMERR"
  | 2 => some "SERVFAIL"
  | 3 => some "NXDOMAIN"
  | 4 => some "NOTIMP"
  | 5 => some "REFUSED"
  | 6 => some "YXDOMAIN"
  | 7 => some "YXRRSET"
  | 8 => some "NXRRSET"
  | 9 => some "NOTAUTH"
  | 10 => some "NOTZONE"
  | 16 => some "BADSIG"
  | 17 => some "BADKEY"
  | 18 => some "BADTIME"
  | 19 => some "BADMODE"
  | 20 => some "BADNAME"
  | 21 => some "BADALG"
  | 22 => some "BADTRUNC"
  | 23 => some "BADCOOKIE"
  | _ => none

/-- The label lookup of src/unbound.go lines 130-133: the RcodeToString
entry when present, otherwise strconv.Itoa of the code. -/
def rcLabel (rcode : Nat) : String :=
  match RcodeToString rcode with
  | some s => s
  | none => toString rcode

/-- True when the pattern list is an initial segment of the second list. -/
def listStartsWith : List Char → List Char → Bool
  | [], _ => true
  | _ :: _, [] => false
  | a :: as, b :: bs => a == b && listStartsWith as bs

/-- True when the string s ends with the string post. -/
def strEndsWith (s post : String) : Bool :=
  listStartsWith post.data.reverse s.data.reverse

/-- Modelled from the spec: the domain-match helper of the repository
(the method u.match called by ServeDNS) is not under src. Per the spec a
name matches a zone when it equals the zone or is a subdomain of it,
label-wise; on normalized absolute (trailing-dot) names this is equality or
a dot-prefixed string suffix. -/
def zoneMatches (qname zone : String) : Bool :=
  qname == zone || strEndsWith qname ("." ++ zone)

/-- Modelled from the spec: a query name is in scope iff it matches some
entry of the included (from) set and no entry of the excluded (except)
set. -/
def matchScope (u : Unbound) (qname : String) : Bool :=
  u.fromZones.any (fun z => zoneMatches qname z) &&
    !(u.except.any (fun z => zoneMatches qname z))

/-- dns.OPT record test (type code 41). -/
def isOPT (rr : RR) : Bool :=
  rr.rrtype == 41

/-- Modelled from the spec: the dnssec record-type predicate of the
repository (passed by ServeDNS to filter) is not under src. Per the spec it
selects the DNSSEC-specific record types: signatures (RRSIG 46), the NSEC
family (NSEC 47, NSEC3 50, NSEC3PARAM 51) and key/delegation material
(DNSKEY 48, DS 43). -/
def dnssec (rr : RR) : Bool :=
  rr.rrtype == 46 || rr.rrtype == 47 || rr.rrtype == 50 ||
    rr.rrtype == 48 || rr.rrtype == 43 || rr.rrtype == 51

/-- Modelled from the spec: the filter helper of the repository (called by
ServeDNS as filter(res.AnswerPacket, dnssec)) is not under src. Per the
spec it removes the records selected by the predicate from all sections of
the message. -/
def filter (m : Msg) (f : RR → Bool) : Msg :=
  { m with
    answer := m.answer.filter (fun rr => !f rr)
    ns := m.ns.filter (fun rr => !f rr)
    extra := m.extra.filter (fun rr => !f rr) }

/-- The OPT-removal loop of ServeDNS (src/unbound.go lines 150-156): scan
Extra left to right, splice out the first OPT record, break. -/
def removeFirstOPT : List RR → List RR
  | [] => []
  | rr :: rest => if isOPT rr then rest else rr :: removeFirstOPT rest

/-- The result the transport switch of ServeDNS selects: u.t for "tcp",
u.u for "udp", and the zero values (nil, nil) for any other protocol, since
neither case of the switch runs. -/
def selectedRes (env : Env) (proto : String) : Option UbResult :=
  if proto == "tcp" then env.tcpRes
  else if proto == "udp" then env.udpRes
  else none

/-- The error the transport switch of ServeDNS selects; see selectedRes. -/
def selectedErr (env : Env) (proto : String) : Option String :=
  if proto == "tcp" then env.tcpErr
  else if proto == "udp" then env.udpErr
  else none

/-- ServeDNS from src/unbound.go, lines 108-161. The overall Option is the
panic monad: none means the Go code dereferenced a nil pointer. The order
of the none-propagating matches follows the order of the dereferences in
the source: res.AnswerPacket.Rcode (only when err is nil), then res.Rtt for
the duration observation, then res.AnswerPacket.Question. -/
def ServeDNS (u : Unbound) (env : Env) (r : Request) : Option ServeResult :=
  if !(matchScope u r.qname) then
    some { rcode := env.nextRcode, err := env.nextErr, metrics := [], written := none }
  else
    let res := selectedRes env r.proto
    let err := selectedErr env r.proto
    let rcodeOpt : Option Nat :=
      match err with
      | some _ => some RcodeServerFailure
      | none =>
        match res with
        | none => none
        | some rr =>
          match rr.answerPacket with
          | none => none
          | some ap => some ap.rcode
    match rcodeOpt with
    | none => none
    | some rcode =>
      let rc := rcLabel rcode
      match res with
      | none => none
      | some rr =>
        let ms := [Metric.rcodeCount env.server rc,
                   Metric.requestDuration env.server rr.rtt]
        match err with
        | some e =>
          some { rcode := RcodeServerFailure, err := some e, metrics := ms, written := none }
        | none =>
          match rr.answerPacket with
          | none => none
          | some ap =>
            if ap.question.isNone then
              some { rcode := RcodeServerFailure, err := none, metrics := ms, written := none }
            else if u.strict && rr.bogus then
              some { rcode := RcodeServerFailure, err := some rr.whyBogus, metrics := ms, written := none }
            else
              let ap1 := if !r.doBit then
                  filter { ap with extra := removeFirstOPT ap.extra } dnssec
                else ap
              let ap2 := { ap1 with id := r.id }
              some { rcode := 0, err := none, metrics := ms, written := some ap2 }

/-- Transport tag of a libunbound context call. -/
inductive Transport where
  | udp
  | tcp
deriving DecidableEq, Repr

/-- One call made into a libunbound context: SetOption, Config, or
AddTaFile, with the arguments passed. -/
inductive CtxCall where
  | setOption (t : Transport) (k v : String)
  | loadConfig (t : Transport) (f : String)
  | addTaFile (t : Transport) (f : String)
deriving DecidableEq, Repr

/-- The outcome of one configuration-application helper: the context calls
it made, in order, and its returned error. -/
structure ApplyResult where
  calls : List CtxCall
  err : Option String
deriving DecidableEq, Repr

/-- setOption from src/unbound.go lines 63-73: append ":" to the key, call
SetOption on the udp context discarding the result, call it on the tcp
context, and fail only on a tcp error, wrapping it. udpErr and tcpErr are
the responses of the two external contexts. -/
def setOption (k v : String) (udpErr tcpErr : Option String) : ApplyResult :=
  let k := k ++ ":"
  { calls := [CtxCall.setOption Transport.udp k v, CtxCall.setOption Transport.tcp k v]
    err :=
      match udpErr, tcpErr with
      | _, some e =>
        some ("failed to set option \"" ++ k ++ "\" with value \"" ++ v ++ "\": " ++ e)
      | _, none => none }

/-- config from src/unbound.go lines 76-89: Config on the udp context,
returning a wrapped error on failure without touching the tcp context;
then Config on the tcp context, wrapping its error. -/
def config (f : String) (udpErr tcpErr : Option String) : ApplyResult :=
  match udpErr with
  | some e =>
    { calls := [CtxCall.loadConfig Transport.udp f]
      err := some ("failed to read config file (" ++ f ++ ") UDP context: " ++ e) }
  | none =>
    match tcpErr with
    | some e =>
      { calls := [CtxCall.loadConfig Transport.udp f, CtxCall.loadConfig Transport.tcp f]
        err := some ("failed to read config file (" ++ f ++ ") TCP context: " ++ e) }
    | none =>
      { calls := [CtxCall.loadConfig Transport.udp f, CtxCall.loadConfig Transport.tcp f]
        err := none }

/-- setAnchor from src/unbound.go lines 92-105: AddTaFile on the udp
context, returning a wrapped error on failure without touching the tcp
context; then AddTaFile on the tcp context, wrapping its error. -/
def setAnchor (f : String) (udpErr tcpErr : Option String) : ApplyResult :=
  match udpErr with
  | some e =>
    { calls := [CtxCall.addTaFile Transport.udp f]
      err := some ("failed to read trust anchor file (" ++ f ++ ") UDP context: " ++ e) }
  | none =>
    match tcpErr with
    | some e =>
      { calls := [CtxCall.addTaFile Transport.udp f, CtxCall.addTaFile Transport.tcp f]
        err := some ("failed to read trust anchor file (" ++ f ++ ") TCP context: " ++ e) }
    | none =>
      { calls := [CtxCall.addTaFile Transport.udp f, CtxCall.addTaFile Transport.tcp f]
        err := none }

/-- The options map of src/unbound.go lines 33-36, as an association list
(Go map iteration order is unspecified; the fixed order here is harmless
because the options are independent). -/
def optionsList : List (String × String) :=
  [("msg-cache-size", "0"), ("rrset-cache-size", "0")]

/-- The outcome of New: the constructed plugin value, the warnings logged,
and the context calls made. -/
structure NewResult where
  u : Unbound
  warnings : List String
  calls : List CtxCall
deriving DecidableEq, Repr

/-- New from src/unbound.go lines 39-53: create both contexts, force
tcp-upstream on the tcp context (result discarded), then apply each default
option through setOption, logging failures as warnings and never failing.
optErrs gives, per option key, the (udp, tcp) context responses. -/
def New (optErrs : String → Option String × Option String) : NewResult :=
  let start : NewResult :=
    { u := { fromZones := [], except := [], strict := false }
      warnings := []
      calls := [CtxCall.setOption Transport.tcp "tcp-upstream:" "yes"] }
  optionsList.foldl
    (fun acc kv =>
      let r := setOption kv.1 kv.2 (optErrs kv.1).1 (optErrs kv.1).2
      { acc with
        calls := acc.calls ++ r.calls
        warnings :=
          match r.err with
          | some e => acc.warnings ++ ["Could not set option: " ++ e]
          | none => acc.warnings })
    start

/-- The error text of caddy Controller.ArgErr (argument-count violations
and unknown directives in the block). -/
def cArgErr : String := "wrong argument count or unexpected line ending"

/-- The error text of plugin.ErrOnce. -/
def errOnce : String := "this plugin can only be used once per Server Block"

/-- One directive inside the unbound configuration block. The option,
config and anchor directives carry the responses the two external contexts
would give when the directive is applied. -/
inductive Directive where
  | except (zones : List String)
  | option (args : List String) (udpErr tcpErr : Option String)
  | config (args : List String) (udpErr tcpErr : Option String)
  | anchor (args : List String) (udpErr tcpErr : Option String)
  | unknown
deriving DecidableEq, Repr

/-- One unbound configuration block: the arguments following the directive
name (the from zones) and the inner directives in order. -/
structure Block where
  args : List String
  directives : List Directive
deriving DecidableEq, Repr

/-- normalizeHost from src/setup.go lines 47-54. The external
plugin.Host(...).NormalizeExact() is the parameter normalize; the Go code
accepts exactly a singleton list whose element is non-empty. -/
def normalizeHost (normalize : String → List String) (valueName hostStr : String) :
    Except String String :=
  match normalize hostStr with
  | [h] =>
    if h.length > 0 then Except.ok h
    else Except.error
      ("Invalid '" ++ valueName ++ "' value should be normalizable as a non-empty domain name: "
        ++ hostStr)
  | _ => Except.error
      ("Invalid '" ++ valueName ++ "' value should be normalizable as a non-empty domain name: "
        ++ hostStr)

/-- One iteration of the NextBlock switch of unboundParse (src/setup.go
lines 85-125): except normalizes its arguments and replaces u.except;
option, config and anchor check argument counts, run the corresponding
helper, abort on its error, and anchor additionally sets strict; an
unknown directive is an ArgErr. -/
def applyDirective (normalize : String → List String) (u : Unbound) :
    Directive → Except String Unbound
  | Directive.except zones =>
    if zones.length == 0 then Except.error cArgErr
    else
      match zones.mapM (normalizeHost normalize "except") with
      | Except.error e => Except.error e
      | Except.ok hosts => Except.ok { u with except := hosts }
  | Directive.option args udpErr tcpErr =>
    match args with
    | [k, v] =>
      match (setOption k v udpErr tcpErr).err with
      | some e => Except.error e
      | none => Except.ok u
    | _ => Except.error cArgErr
  | Directive.config args udpErr tcpErr =>
    match args with
    | [f] =>
      match (config f udpErr tcpErr).err with
      | some e => Except.error e
      | none => Except.ok u
    | _ => Except.error cArgErr
  | Directive.anchor args udpErr tcpErr =>
    match args with
    | [f] =>
      match (setAnchor f udpErr tcpErr).err with
      | some e => Except.error e
      | none => Except.ok { u with strict := true }
    | _ => Except.error cArgErr
  | Directive.unknown => Except.error cArgErr

/-- The inner NextBlock loop of unboundParse, folded over the listed
directives. -/
def applyDirectives (normalize : String → List String) (u : Unbound) :
    List Directive → Except String Unbound
  | [] => Except.ok u
  | d :: ds =>
    match applyDirective normalize u d with
    | Except.error e => Except.error e
    | Except.ok u1 => applyDirectives normalize u1 ds

/-- The body of one c.Next() iteration of unboundParse: take the remaining
arguments as the from set, defaulting to the server block keys when empty,
normalize each, then process the inner block. -/
def parseBlock (normalize : String → List String) (serverBlockKeys : List String)
    (u : Unbound) (b : Block) : Except String Unbound :=
  match (if b.args.length == 0 then serverBlockKeys else b.args).mapM
      (normalizeHost normalize "from") with
  | Except.error e => Except.error e
  | Except.ok hosts => applyDirectives normalize { u with fromZones := hosts } b.directives

/-- unboundParse from src/setup.go lines 56-130. The caddy token stream is
abstracted as the list of unbound blocks it yields. The Go loop processes
the first block and, on seeing a second one, fails with plugin.ErrOnce
(after the first block has already been processed, so an error in the first
block surfaces first). -/
def unboundParse (optErrs : String → Option String × Option String)
    (normalize : String → List String) (serverBlockKeys : List String)
    (blocks : List Block) : Except String Unbound :=
  let u := (New optErrs).u
  match blocks with
  | [] => Except.ok u
  | [b] => parseBlock normalize serverBlockKeys u b
  | b :: _ :: _ =>
    match parseBlock normalize serverBlockKeys u b with
    | Except.error e => Except.error e
    | Except.ok _ => Except.error errOnce

/-- True on anchor directives. -/
def isAnchorDirective : Directive → Bool
  | Directive.anchor _ _ _ => true
  | _ => false

/-- True on RcodeCount increments. -/
def isRcodeCountEvent : Metric → Bool
  | Metric.rcodeCount _ _ => true
  | _ => false

/-- True on RequestDuration observations. -/
def isDurationEvent : Metric → Bool
  | Metric.requestDuration _ _ => true
  | _ => false

/-- Concrete question used by the concrete evaluations below. -/
def wQ : DNSQuestion := { qname := "a.org.", qtype := 1, qclass := 1 }

/-- Concrete non-strict plugin serving org. -/
def wU : Unbound := { fromZones := ["org."], except := [], strict := false }

/-- Concrete strict plugin serving org. -/
def wUs : Unbound := { fromZones := ["org."], except := [], strict := true }

/-- Concrete in-scope udp query with the DO bit set. -/
def wReq : Request :=
  { proto := "udp", qname := "a.org.", qtype := 1, qclass := 1, doBit := true, id := 9 }

/-- The same query with the DO bit unset. -/
def wReqNoDo : Request := { wReq with doBit := false }

/-- Concrete answer packet: NOERROR, question present, additional section
holding two OPT records, one RRSIG and one plain record. -/
def wAp : Msg :=
  { id := 3, rcode := 0, question := some [wQ], answer := [], ns := []
    extra := [{ rrtype := 41, rdata := "opt1" }, { rrtype := 46, rdata := "sig" },
              { rrtype := 41, rdata := "opt2" }, { rrtype := 1, rdata := "addr" }] }

/-- The same packet with a nil question section. -/
def wApNoQ : Msg := { wAp with question := none }

/-- Concrete non-bogus engine result. -/
def wRes : UbResult := { answerPacket := some wAp, rtt := 7, bogus := false, whyBogus := "" }

/-- Concrete bogus engine result with reason "signature expired". -/
def wResBogus : UbResult :=
  { answerPacket := some wAp, rtt := 7, bogus := true, whyBogus := "signature expired" }

/-- Concrete per-query environment with the given udp context response. -/
def wEnv (res : Option UbResult) (err : Option String) : Env :=
  { server := "s", udpRes := res, udpErr := err, tcpRes := none, tcpErr := none
    nextRcode := 0, nextErr := none }

/-- The environment of the successful concrete resolution. -/
def wEnvOk : Env := wEnv (some wRes) none

/-- The ServeDNS outcome for wU, wEnvOk, wReq. -/
def wOutOk : ServeResult :=
  { rcode := 0, err := none
    metrics := [Metric.rcodeCount "s" "NOERROR", Metric.requestDuration "s" 7]
    written := some { wAp with id := 9 } }

/-- The ServeDNS outcome for wU, wEnvOk, wReqNoDo: first OPT record and the
RRSIG stripped from the additional section. -/
def wOutSan : ServeResult :=
  { rcode := 0, err := none
    metrics := [Metric.rcodeCount "s" "NOERROR", Metric.requestDuration "s" 7]
    written := some { wAp with id := 9, extra := [RR.mk 41 "opt2", RR.mk 1 "addr"] } }

/-- The ServeDNS outcome for a concrete engine error with a non-nil
result. -/
def wOutErr : ServeResult :=
  { rcode := 2, err := some "engine failure"
    metrics := [Metric.rcodeCount "s" "SERVFAIL", Metric.requestDuration "s" 7]
    written := none }

/-- The ServeDNS outcome for wUs, wEnv (some wResBogus) none, wReq: the
strict bogus rejection. -/
def wOutBogus : ServeResult :=
  { rcode := 2, err := some "signature expired"
    metrics := [Metric.rcodeCount "s" "NOERROR", Metric.requestDuration "s" 7]
    written := none }

/-- Identity-like normalization used to instantiate the external
plugin.Host(...).NormalizeExact() at concrete inputs. -/
def wNorm : String → List String := fun s => [s]

/-- Context responses that always succeed, for New at concrete inputs. -/
def wOpt : String → Option String × Option String := fun _ => (none, none)

/-- Concrete configuration block carrying one successful anchor
directive. -/
def wBlockAnchor : Block :=
  { args := [], directives := [Directive.anchor ["ta.key"] none none] }

/-- A query out of scope is passed to the next handler: its result is
returned unchanged and no metric is emitted. -/
theorem serveDNS_nomatch (u : Unbound) (env : Env) (r : Request)
    (hm : matchScope u r.qname = false) :
    ServeDNS u env r =
      some { rcode := env.nextRcode, err := env.nextErr, metrics := [], written := none } := by
  simp [ServeDNS, hm]

/-- Branch of ServeDNS: engine error with a non-nil result. -/
theorem serveDNS_err (u : Unbound) (env : Env) (r : Request) (e : String) (rr : UbResult)
    (hm : matchScope u r.qname = true)
    (he : selectedErr env r.proto = some e)
    (hres : selectedRes env r.proto = some rr) :
    ServeDNS u env r =
      some { rcode := 2, err := some e
             metrics := [Metric.rcodeCount env.server "SERVFAIL",
                         Metric.requestDuration env.server rr.rtt]
             written := none } := by
  simp [ServeDNS, hm, he, hres, RcodeServerFailure, rcLabel, RcodeToString]

/-- Branch of ServeDNS: engine error with a nil result panics at the
duration observation. -/
theorem serveDNS_err_nilres (u : Unbound) (env : Env) (r : Request) (e : String)
    (hm : matchScope u r.qname = true)
    (he : selectedErr env r.proto = some e)
    (hres : selectedRes env r.proto = none) :
    ServeDNS u env r = none := by
  simp [ServeDNS, hm, he, hres]

/-- Branch of ServeDNS: no engine error and a nil result panics at the
rcode extraction. -/
theorem serveDNS_noerr_nilres (u : Unbound) (env : Env) (r : Request)
    (hm : matchScope u r.qname = true)
    (he : selectedErr env r.proto = none)
    (hres : selectedRes env r.proto = none) :
    ServeDNS u env r = none := by
  simp [ServeDNS, hm, he, hres]

/-- Branch of ServeDNS: no engine error and a nil answer packet panics at
the rcode extraction. -/
theorem serveDNS_noerr_nilap (u : Unbound) (env : Env) (r : Request) (rr : UbResult)
    (hm : matchScope u r.qname = true)
    (he : selectedErr env r.proto = none)
    (hres : selectedRes env r.proto = some rr)
    (hap : rr.answerPacket = none) :
    ServeDNS u env r = none := by
  simp [ServeDNS, hm, he, hres, hap]

/-- Branch of ServeDNS: no engine error, answer present, question section
nil. -/
theorem serveDNS_noq (u : Unbound) (env : Env) (r : Request) (rr : UbResult) (ap : Msg)
    (hm : matchScope u r.qname = true)
    (he : selectedErr env r.proto = none)
    (hres : selectedRes env r.proto = some rr)
    (hap : rr.answerPacket = some ap)
    (hq : ap.question = none) :
    ServeDNS u env r =
      some { rcode := 2, err := none
             metrics := [Metric.rcodeCount env.server (rcLabel ap.rcode),
                         Metric.requestDuration env.server rr.rtt]
             written := none } := by
  simp [ServeDNS, hm, he, hres, hap, hq, RcodeServerFailure]

/-- Branch of ServeDNS: no engine error, answer and question present,
strict mode and a bogus outcome. -/
theorem serveDNS_bogus (u : Unbound) (env : Env) (r : Request) (rr : UbResult) (ap : Msg)
    (hm : matchScope u r.qname = true)
    (he : selectedErr env r.proto = none)
    (hres : selectedRes env r.proto = some rr)
    (hap : rr.answerPacket = some ap)
    (hq : ap.question.isNone = false)
    (hsb : (u.strict && rr.bogus) = true) :
    ServeDNS u env r =
      some { rcode := 2, err := some rr.whyBogus
             metrics := [Metric.rcodeCount env.server (rcLabel ap.rcode),
                         Metric.requestDuration env.server rr.rtt]
             written := none } := by
  simp [ServeDNS, hm, he, hres, hap, hq, hsb, RcodeServerFailure]

/-- Branch of ServeDNS: the successful path, writing the (possibly
sanitized) answer with the id rewritten. -/
theorem serveDNS_ok (u : Unbound) (env : Env) (r : Request) (rr : UbResult) (ap : Msg)
    (hm : matchScope u r.qname = true)
    (he : selectedErr env r.proto = none)
    (hres : selectedRes env r.proto = some rr)
    (hap : rr.answerPacket = some ap)
    (hq : ap.question.isNone = false)
    (hsb : (u.strict && rr.bogus) = false) :
    ServeDNS u env r =
      some { rcode := 0, err := none
             metrics := [Metric.rcodeCount env.server (rcLabel ap.rcode),
                         Metric.requestDuration env.server rr.rtt]
             written := some
               { (if !r.doBit then filter { ap with extra := removeFirstOPT ap.extra } dnssec
                  else ap) with id := r.id } } := by
  simp [ServeDNS, hm, he, hres, hap, hq, hsb]

/-- An OPT record is not a DNSSEC-specific record: type 41 is none of the
types the dnssec predicate selects. -/
theorem isOPT_not_dnssec (rr : RR) (h : isOPT rr = true) : dnssec rr = false := by
  simp only [isOPT, beq_iff_eq] at h
  simp [dnssec, h]

/-- The dnssec filtering pass leaves the OPT records of a section
untouched. -/
theorem filter_not_dnssec_opt (l : List RR) :
    (l.filter (fun rr => !dnssec rr)).filter isOPT = l.filter isOPT := by
  induction l with
  | nil => rfl
  | cons rr rest ih =>
    cases hopt : isOPT rr with
    | true =>
      have hd : dnssec rr = false := isOPT_not_dnssec rr hopt
      simp [List.filter, hd, hopt, ih]
    | false =>
      cases hd : dnssec rr <;> simp [List.filter, hd, hopt, ih]

/-- The OPT-removal loop removes exactly the first OPT record: projected
onto OPT records, its output is the input minus its head. -/
theorem removeFirstOPT_filter (l : List RR) :
    (removeFirstOPT l).filter isOPT = (l.filter isOPT).drop 1 := by
  induction l with
  | nil => rfl
  | cons rr rest ih =>
    cases hopt : isOPT rr with
    | true => simp [removeFirstOPT, hopt, List.filter]
    | false => simp [removeFirstOPT, hopt, List.filter, ih]

/-- Every normally-returning matched query carries exactly the two metric
events, in emission order: one RcodeCount increment and one
RequestDuration observation. -/
theorem serveDNS_metrics_shape (u : Unbound) (env : Env) (r : Request) (out : ServeResult)
    (hm : matchScope u r.qname = true)
    (h : ServeDNS u env r = some out) :
    ∃ rc rtt, out.metrics =
      [Metric.rcodeCount env.server rc, Metric.requestDuration env.server rtt] := by
  cases hres : selectedRes env r.proto with
  | none =>
    cases he : selectedErr env r.proto with
    | some e => rw [serveDNS_err_nilres u env r e hm he hres] at h; cases h
    | none => rw [serveDNS_noerr_nilres u env r hm he hres] at h; cases h
  | some rr =>
    cases he : selectedErr env r.proto with
    | some e =>
      rw [serveDNS_err u env r e rr hm he hres] at h
      injection h with h
      subst h
      exact ⟨"SERVFAIL", rr.rtt, rfl⟩
    | none =>
      cases hap : rr.answerPacket with
      | none => rw [serveDNS_noerr_nilap u env r rr hm he hres hap] at h; cases h
      | some ap =>
        cases hq : ap.question.isNone with
        | true =>
          have hq' : ap.question = none := Option.isNone_iff_eq_none.mp hq
          rw [serveDNS_noq u env r rr ap hm he hres hap hq'] at h
          injection h with h
          subst h
          exact ⟨rcLabel ap.rcode, rr.rtt, rfl⟩
        | false =>
          cases hsb : u.strict && rr.bogus with
          | true =>
            rw [serveDNS_bogus u env r rr ap hm he hres hap hq hsb] at h
            injection h with h
            subst h
            exact ⟨rcLabel ap.rcode, rr.rtt, rfl⟩
          | false =>
            rw [serveDNS_ok u env r rr ap hm he hres hap hq hsb] at h
            injection h with h
            subst h
            exact ⟨rcLabel ap.rcode, rr.rtt, rfl⟩

/-- No directive ever clears the strict flag. -/
theorem applyDirective_strict_mono (n : String → List String) (u u' : Unbound) (d : Directive)
    (h : applyDirective n u d = Except.ok u') (hs : u.strict = true) : u'.strict = true := by
  cases d with
  | except zones =>
    simp only [applyDirective] at h
    split at h
    · cases h
    · split at h
      · cases h
      · injection h with h; subst h; exact hs
  | option args ue te =>
    simp only [applyDirective] at h
    split at h
    · split at h
      · cases h
      · injection h with h; subst h; exact hs
    · cases h
  | config args ue te =>
    simp only [applyDirective] at h
    split at h
    · split at h
      · cases h
      · injection h with h; subst h; exact hs
    · cases h
  | anchor args ue te =>
    simp only [applyDirective] at h
    split at h
    · split at h
      · cases h
      · injection h with h; subst h; rfl
    · cases h
  | unknown =>
    simp only [applyDirective] at h
    cases h

/-- A successfully processed anchor directive sets the strict flag. -/
theorem applyDirective_anchor_strict (n : String → List String) (u u' : Unbound)
    (d : Directive) (ha : isAnchorDirective d = true)
    (h : applyDirective n u d = Except.ok u') : u'.strict = true := by
  cases d <;> simp only [isAnchorDirective] at ha <;> try cases ha
  case anchor args ue te =>
    simp only [applyDirective] at h
    split at h
    · split at h
      · cases h
      · injection h with h; subst h; rfl
    · cases h

/-- Strict-flag monotonicity over a directive list. -/
theorem applyDirectives_strict_mono (n : String → List String) (ds : List Directive) :
    ∀ u u', applyDirectives n u ds = Except.ok u' → u.strict = true → u'.strict = true := by
  induction ds with
  | nil =>
    intro u u' h hs
    simp only [applyDirectives] at h
    injection h with h
    subst h
    exact hs
  | cons d ds ih =>
    intro u u' h hs
    simp only [applyDirectives] at h
    cases hd : applyDirective n u d with
    | error e => rw [hd] at h; cases h
    | ok u1 =>
      rw [hd] at h
      exact ih u1 u' h (applyDirective_strict_mono n u u1 d hd hs)

/-- If a directive list containing an anchor directive is processed
successfully, the resulting plugin is strict. -/
theorem applyDirectives_anchor_strict (n : String → List String) (ds : List Directive) :
    ∀ u u', (ds.any isAnchorDirective) = true →
      applyDirectives n u ds = Except.ok u' → u'.strict = true := by
  induction ds with
  | nil => intro u u' ha; cases ha
  | cons d ds ih =>
    intro u u' ha h
    simp only [applyDirectives] at h
    cases hd : applyDirective n u d with
    | error e => rw [hd] at h; cases h
    | ok u1 =>
      rw [hd] at h
      cases hda : isAnchorDirective d with
      | true =>
        exact applyDirectives_strict_mono n ds u1 u' h
          (applyDirective_anchor_strict n u u1 d hda hd)
      | false =>
        rcases List.any_eq_true.mp ha with ⟨d0, hd0, had0⟩
        rcases List.mem_cons.mp hd0 with rfl | hmem
        · rw [hda] at had0; cases had0
        · exact ih u1 u' (List.any_eq_true.mpr ⟨d0, hmem, had0⟩) h

/-- If a block whose directives contain an anchor directive is processed
successfully, the resulting plugin is strict. -/
theorem parseBlock_anchor_strict (n : String → List String) (keys : List String)
    (u u' : Unbound) (b : Block)
    (ha : (b.directives.any isAnchorDirective) = true)
    (h : parseBlock n keys u b = Except.ok u') : u'.strict = true := by
  simp only [parseBlock] at h
  split at h
  · cases h
  · exact applyDirectives_anchor_strict n b.directives _ u' ha h

/-- C1 counterexample: an in-scope query whose engine outcome has no error
but an answer with a nil question section makes ServeDNS return SERVFAIL
together with a nil error — not the non-nil generic failure error the
claim requires. -/
theorem c1_counterexample :
    ServeDNS wU
      (wEnv (some { answerPacket := some wApNoQ, rtt := 7, bogus := false, whyBogus := "" }) none)
      wReq =
      some { rcode := 2, err := none
             metrics := [Metric.rcodeCount "s" "NOERROR", Metric.requestDuration "s" 7]
             written := none } := by
  decide

/-- C1 (amended): for every in-scope query, if the engine returned an
error (alongside a non-nil result) or returned an answer whose question
section is absent, ServeDNS yields response code SERVFAIL and returns
exactly the engine error: the engine error when there was one, and a nil
error when the only failure is the missing question section — no generic
failure error is substituted. -/
theorem c1_amended (u : Unbound) (env : Env) (r : Request) (out : ServeResult)
    (hm : matchScope u r.qname = true)
    (h : ServeDNS u env r = some out) :
    (∀ e rr, selectedErr env r.proto = some e → selectedRes env r.proto = some rr →
      out.rcode = 2 ∧ out.err = some e) ∧
    (∀ rr ap, selectedErr env r.proto = none → selectedRes env r.proto = some rr →
      rr.answerPacket = some ap → ap.question = none →
      out.rcode = 2 ∧ out.err = none) := by
  constructor
  · intro e rr he hres
    rw [serveDNS_err u env r e rr hm he hres] at h
    injection h with h
    subst h
    exact ⟨rfl, rfl⟩
  · intro rr ap he hres hap hq
    rw [serveDNS_noq u env r rr ap hm he hres hap hq] at h
    injection h with h
    subst h
    exact ⟨rfl, rfl⟩

/-- C1 witness: the amended theorem at a concrete erroring resolution. -/
theorem c1_witness :
    matchScope wU wReq.qname = true ∧
    ServeDNS wU (wEnv (some wRes) (some "engine failure")) wReq = some wOutErr ∧
    wOutErr.rcode = 2 ∧ wOutErr.err = some "engine failure" := by
  refine ⟨by decide, by decide, ?_⟩
  exact (c1_amended wU (wEnv (some wRes) (some "engine failure")) wReq wOutErr
    (by decide) (by decide)).1 "engine failure" wRes (by decide) (by decide)

/-- C2 counterexample: strict mode, bogus outcome, embedded response code
NOERROR. The effective response code after policy application is SERVFAIL
(the returned rcode is 2), yet the counter is incremented with label
"NOERROR" — the embedded code, not the effective one. -/
theorem c2_counterexample :
    ServeDNS wUs (wEnv (some wResBogus) none) wReq =
      some { rcode := 2, err := some "signature expired"
             metrics := [Metric.rcodeCount "s" "NOERROR", Metric.requestDuration "s" 7]
             written := none } := by
  decide

/-- C2 (amended): every query that reaches the resolving state and returns
normally increments the response-code counter exactly once, with the
pre-policy response code: SERVFAIL when the engine returned an error, and
otherwise the response code embedded in the answer — even when a strict
bogus rejection later overrides the returned code to SERVFAIL. -/
theorem c2_amended (u : Unbound) (env : Env) (r : Request) (out : ServeResult)
    (hm : matchScope u r.qname = true)
    (h : ServeDNS u env r = some out) :
    (out.metrics.filter isRcodeCountEvent).length = 1 ∧
    (∀ e rr, selectedErr env r.proto = some e → selectedRes env r.proto = some rr →
      out.metrics.filter isRcodeCountEvent = [Metric.rcodeCount env.server "SERVFAIL"]) ∧
    (∀ rr ap, selectedErr env r.proto = none → selectedRes env r.proto = some rr →
      rr.answerPacket = some ap →
      out.metrics.filter isRcodeCountEvent = [Metric.rcodeCount env.server (rcLabel ap.rcode)]) := by
  refine ⟨?_, ?_, ?_⟩
  · obtain ⟨rc, rtt, hms⟩ := serveDNS_metrics_shape u env r out hm h
    rw [hms]
    simp [List.filter, isRcodeCountEvent]
  · intro e rr he hres
    rw [serveDNS_err u env r e rr hm he hres] at h
    injection h with h
    subst h
    simp [List.filter, isRcodeCountEvent]
  · intro rr ap he hres hap
    cases hq : ap.question.isNone with
    | true =>
      rw [serveDNS_noq u env r rr ap hm he hres hap (Option.isNone_iff_eq_none.mp hq)] at h
      injection h with h
      subst h
      simp [List.filter, isRcodeCountEvent]
    | false =>
      cases hsb : u.strict && rr.bogus with
      | true =>
        rw [serveDNS_bogus u env r rr ap hm he hres hap hq hsb] at h
        injection h with h
        subst h
        simp [List.filter, isRcodeCountEvent]
      | false =>
        rw [serveDNS_ok u env r rr ap hm he hres hap hq hsb] at h
        injection h with h
        subst h
        simp [List.filter, isRcodeCountEvent]

/-- C2 witness: the amended theorem at the concrete strict bogus
resolution; the counter label is the embedded NOERROR. -/
theorem c2_witness :
    matchScope wUs wReq.qname = true ∧
    ServeDNS wUs (wEnv (some wResBogus) none) wReq = some wOutBogus ∧
    wOutBogus.metrics.filter isRcodeCountEvent = [Metric.rcodeCount "s" (rcLabel wAp.rcode)] := by
  refine ⟨by decide, by decide, ?_⟩
  exact (c2_amended wUs (wEnv (some wResBogus) none) wReq wOutBogus
    (by decide) (by decide)).2.2 wResBogus wAp (by decide) (by decide) (by decide)

/-- C3 counterexample: strict mode and a resolution outcome flagged bogus
with reason "signature expired", accompanied by an engine error. The
response code is SERVFAIL but the returned error message is the engine
error, not the bogus reason string the claim requires. -/
theorem c3_counterexample :
    ServeDNS wUs (wEnv (some wResBogus) (some "network unreachable")) wReq =
      some { rcode := 2, err := some "network unreachable"
             metrics := [Metric.rcodeCount "s" "SERVFAIL", Metric.requestDuration "s" 7]
             written := none } ∧
    wResBogus.bogus = true ∧ wResBogus.whyBogus = "signature expired" := by
  refine ⟨by decide, rfl, rfl⟩

/-- C3 (amended): a successful trust anchor load during parsing makes the
plugin strict, and for a strict plugin every in-scope resolution outcome
flagged bogus yields response code SERVFAIL regardless of the embedded
response code; the returned error carries the bogus reason string provided
the engine returned no error and the answer has a question section
(otherwise the engine error — possibly nil — is propagated instead). -/
theorem c3_amended :
    (∀ (optErrs : String → Option String × Option String)
        (normalize : String → List String)
        (keys : List String) (blocks : List Block) (u : Unbound),
      unboundParse optErrs normalize keys blocks = Except.ok u →
      (blocks.any fun b => b.directives.any isAnchorDirective) = true →
      u.strict = true) ∧
    (∀ (u : Unbound) (env : Env) (r : Request) (rr : UbResult) (out : ServeResult),
      u.strict = true → matchScope u r.qname = true →
      selectedRes env r.proto = some rr → rr.bogus = true →
      ServeDNS u env r = some out →
      out.rcode = 2 ∧
      (∀ ap, selectedErr env r.proto = none → rr.answerPacket = some ap →
        ap.question.isNone = false → out.err = some rr.whyBogus)) := by
  constructor
  · intro optErrs normalize keys blocks u h ha
    cases blocks with
    | nil => simp at ha
    | cons b bs =>
      cases bs with
      | nil =>
        simp only [List.any, Bool.or_false] at ha
        simp only [unboundParse] at h
        exact parseBlock_anchor_strict normalize keys _ u b ha h
      | cons b2 bs2 =>
        simp only [unboundParse] at h
        split at h
        · cases h
        · cases h
  · intro u env r rr out hs hm hres hb h
    cases he : selectedErr env r.proto with
    | some e =>
      rw [serveDNS_err u env r e rr hm he hres] at h
      injection h with h
      subst h
      refine ⟨rfl, ?_⟩
      intro ap he' hap hq
      cases he'
    | none =>
      cases hap : rr.answerPacket with
      | none =>
        rw [serveDNS_noerr_nilap u env r rr hm he hres hap] at h
        cases h
      | some ap =>
        cases hq : ap.question.isNone with
        | true =>
          have hq' : ap.question = none := Option.isNone_iff_eq_none.mp hq
          rw [serveDNS_noq u env r rr ap hm he hres hap hq'] at h
          injection h with h
          subst h
          refine ⟨rfl, ?_⟩
          intro ap' he' hap' hq''
          injection hap' with hap'
          subst hap'
          rw [hq'] at hq''
          simp at hq''
        | false =>
          have hsb : (u.strict && rr.bogus) = true := by rw [hs, hb]; rfl
          rw [serveDNS_bogus u env r rr ap hm he hres hap hq hsb] at h
          injection h with h
          subst h
          exact ⟨rfl, fun ap' he' hap' hq'' => rfl⟩

/-- C3 witness: parsing a block with a successful anchor directive yields
the strict plugin, and the strict plugin rejects the concrete bogus
resolution with SERVFAIL and the bogus reason. -/
theorem c3_witness :
    unboundParse wOpt wNorm ["org."] [wBlockAnchor] = Except.ok wUs ∧
    wUs.strict = true ∧
    ServeDNS wUs (wEnv (some wResBogus) none) wReq = some wOutBogus ∧
    wOutBogus.rcode = 2 ∧ wOutBogus.err = some wResBogus.whyBogus := by
  refine ⟨rfl, ?_, by decide, ?_, ?_⟩
  · exact c3_amended.1 wOpt wNorm ["org."] [wBlockAnchor] wUs rfl (by decide)
  · exact (c3_amended.2 wUs (wEnv (some wResBogus) none) wReq wResBogus wOutBogus
      rfl (by decide) (by decide) rfl (by decide)).1
  · exact (c3_amended.2 wUs (wEnv (some wResBogus) none) wReq wResBogus wOutBogus
      rfl (by decide) (by decide) rfl (by decide)).2 wAp (by decide) (by decide) (by decide)

/-- C4 counterexample: an in-scope udp query for which the engine returns
a nil result together with an error. ServeDNS reads the round-trip time
off the nil result: the modelled execution panics (evaluates to none), so
the result is dereferenced while nil, contrary to the claim. -/
theorem c4_counterexample :
    ServeDNS wU (wEnv none (some "resolver failure")) wReq = none := by
  decide

/-- C4 (amended): ServeDNS dereferences no nil result only under the
collaborator assumptions that the transport is udp or tcp, that the
selected context returned a non-nil result even alongside an error, and
that the result carries a non-nil answer packet whenever no error was
returned; under those assumptions every in-scope query completes without a
nil dereference. -/
theorem c4_amended (u : Unbound) (env : Env) (r : Request) (rr : UbResult)
    (hm : matchScope u r.qname = true)
    (hp : r.proto = "udp" ∨ r.proto = "tcp")
    (hres : selectedRes env r.proto = some rr)
    (hap : selectedErr env r.proto = none → rr.answerPacket.isSome = true) :
    (ServeDNS u env r).isSome = true := by
  cases he : selectedErr env r.proto with
  | some e =>
    rw [serveDNS_err u env r e rr hm he hres]
    rfl
  | none =>
    obtain ⟨ap, hap'⟩ := Option.isSome_iff_exists.mp (hap he)
    cases hq : ap.question.isNone with
    | true =>
      rw [serveDNS_noq u env r rr ap hm he hres hap' (Option.isNone_iff_eq_none.mp hq)]
      rfl
    | false =>
      cases hsb : u.strict && rr.bogus with
      | true =>
        rw [serveDNS_bogus u env r rr ap hm he hres hap' hq hsb]
        rfl
      | false =>
        rw [serveDNS_ok u env r rr ap hm he hres hap' hq hsb]
        rfl

/-- C4 witness: the amended theorem at the concrete successful
resolution. -/
theorem c4_witness :
    matchScope wU wReq.qname = true ∧
    selectedRes wEnvOk wReq.proto = some wRes ∧
    (ServeDNS wU wEnvOk wReq).isSome = true := by
  refine ⟨by decide, by decide, ?_⟩
  exact c4_amended wU wEnvOk wReq wRes (by decide) (Or.inl rfl) (by decide)
    (fun _ => by decide)

/-- C5: a query that does not match produces the next-handler result with
no metric events, and every matched query that returns normally carries
exactly one duration observation and exactly one response-code counter
increment, regardless of outcome. -/
theorem c5_metrics (u : Unbound) (env : Env) (r : Request) :
    (matchScope u r.qname = false →
      ServeDNS u env r =
        some { rcode := env.nextRcode, err := env.nextErr, metrics := [], written := none }) ∧
    (∀ out, matchScope u r.qname = true → ServeDNS u env r = some out →
      (out.metrics.filter isDurationEvent).length = 1 ∧
      (out.metrics.filter isRcodeCountEvent).length = 1) := by
  constructor
  · exact fun hm => serveDNS_nomatch u env r hm
  · intro out hm h
    obtain ⟨rc, rtt, hms⟩ := serveDNS_metrics_shape u env r out hm h
    rw [hms]
    constructor <;> simp [List.filter, isDurationEvent, isRcodeCountEvent]

/-- C5 witness: the theorem at a concrete pass-through query and at a
concrete resolved query. -/
theorem c5_witness :
    matchScope wU "a.com." = false ∧
    ServeDNS wU wEnvOk { wReq with qname := "a.com." } =
      some { rcode := 0, err := none, metrics := [], written := none } ∧
    matchScope wU wReq.qname = true ∧
    ServeDNS wU wEnvOk wReq = some wOutOk ∧
    (wOutOk.metrics.filter isDurationEvent).length = 1 ∧
    (wOutOk.metrics.filter isRcodeCountEvent).length = 1 := by
  refine ⟨by decide, ?_, by decide, by decide, ?_, ?_⟩
  · exact (c5_metrics wU wEnvOk { wReq with qname := "a.com." }).1 (by decide)
  · exact ((c5_metrics wU wEnvOk wReq).2 wOutOk (by decide) (by decide)).1
  · exact ((c5_metrics wU wEnvOk wReq).2 wOutOk (by decide) (by decide)).2

/-- C6: when the engine returns no error, the answer has a question
section, and no strict bogus rejection applies, the message written to the
requester carries the response code embedded in the answer, verbatim, and
ServeDNS returns code 0 with no error. -/
theorem c6_verbatim_rcode (u : Unbound) (env : Env) (r : Request) (rr : UbResult)
    (ap : Msg) (out : ServeResult)
    (hm : matchScope u r.qname = true)
    (he : selectedErr env r.proto = none)
    (hres : selectedRes env r.proto = some rr)
    (hap : rr.answerPacket = some ap)
    (hq : ap.question.isNone = false)
    (hsb : (u.strict && rr.bogus) = false)
    (h : ServeDNS u env r = some out) :
    ∃ m, out.written = some m ∧ m.rcode = ap.rcode ∧ out.rcode = 0 ∧ out.err = none := by
  rw [serveDNS_ok u env r rr ap hm he hres hap hq hsb] at h
  injection h with h
  subst h
  refine ⟨_, rfl, ?_, rfl, rfl⟩
  cases hd : r.doBit <;> simp [hd, filter]

/-- C6 witness: the theorem at the concrete non-strict bogus-free
resolution. -/
theorem c6_witness :
    matchScope wU wReq.qname = true ∧
    ServeDNS wU wEnvOk wReq = some wOutOk ∧
    (∃ m, wOutOk.written = some m ∧ m.rcode = wAp.rcode ∧
      wOutOk.rcode = 0 ∧ wOutOk.err = none) := by
  refine ⟨by decide, by decide, ?_⟩
  exact c6_verbatim_rcode wU wEnvOk wReq wRes wAp wOutOk (by decide) (by decide)
    (by decide) (by decide) (by decide) (by decide) (by decide)

/-- C7: for a requester without the DO bit, the sanitized additional
section holds exactly the OPT records of the engine answer minus the first
one: the first OPT record is removed and every other OPT record remains,
in order, even when duplicates exist. -/
theorem c7_first_opt_removed (u : Unbound) (env : Env) (r : Request) (rr : UbResult)
    (ap : Msg) (out : ServeResult)
    (hm : matchScope u r.qname = true)
    (he : selectedErr env r.proto = none)
    (hres : selectedRes env r.proto = some rr)
    (hap : rr.answerPacket = some ap)
    (hq : ap.question.isNone = false)
    (hsb : (u.strict && rr.bogus) = false)
    (hdo : r.doBit = false)
    (h : ServeDNS u env r = some out) :
    ∃ m, out.written = some m ∧
      m.extra.filter isOPT = (ap.extra.filter isOPT).drop 1 := by
  rw [serveDNS_ok u env r rr ap hm he hres hap hq hsb] at h
  injection h with h
  subst h
  refine ⟨_, rfl, ?_⟩
  simp only [hdo, Bool.not_false, if_true, filter]
  rw [filter_not_dnssec_opt, removeFirstOPT_filter]

/-- C7 witness: the theorem at the concrete answer whose additional
section holds two OPT records; only the first is removed. -/
theorem c7_witness :
    wReqNoDo.doBit = false ∧
    ServeDNS wU wEnvOk wReqNoDo = some wOutSan ∧
    (∃ m, wOutSan.written = some m ∧
      m.extra.filter isOPT = (wAp.extra.filter isOPT).drop 1) := by
  refine ⟨rfl, by decide, ?_⟩
  exact c7_first_opt_removed wU wEnvOk wReqNoDo wRes wAp wOutSan (by decide) (by decide)
    (by decide) (by decide) (by decide) (by decide) rfl (by decide)

/-- C8: for a requester with the DO bit set, the message written to the
requester is the engine answer unchanged in every field except the id,
which is overwritten with the query id. -/
theorem c8_do_passthrough (u : Unbound) (env : Env) (r : Request) (rr : UbResult)
    (ap : Msg) (out : ServeResult)
    (hm : matchScope u r.qname = true)
    (he : selectedErr env r.proto = none)
    (hres : selectedRes env r.proto = some rr)
    (hap : rr.answerPacket = some ap)
    (hq : ap.question.isNone = false)
    (hsb : (u.strict && rr.bogus) = false)
    (hdo : r.doBit = true)
    (h : ServeDNS u env r = some out) :
    out.written = some { ap with id := r.id } := by
  rw [serveDNS_ok u env r rr ap hm he hres hap hq hsb] at h
  injection h with h
  subst h
  simp [hdo]

/-- C8 witness: the theorem at the concrete DO-bit query; the written
message is the engine answer with only the id rewritten. -/
theorem c8_witness :
    wReq.doBit = true ∧
    ServeDNS wU wEnvOk wReq = some wOutOk ∧
    wOutOk.written = some { wAp with id := wReq.id } := by
  refine ⟨rfl, by decide, ?_⟩
  exact c8_do_passthrough wU wEnvOk wReq wRes wAp wOutOk (by decide) (by decide)
    (by decide) (by decide) (by decide) (by decide) rfl (by decide)

/-- C9 counterexample: when loading a configuration file fails on the UDP
context, the operation is not attempted on the TCP context at all — the
call trace holds only the UDP call — contradicting the claim that each
operation is attempted on both contexts. -/
theorem c9_counterexample :
    (config "unbound.conf" (some "no such file or directory") none).calls =
      [CtxCall.loadConfig Transport.udp "unbound.conf"] ∧
    ¬ (CtxCall.loadConfig Transport.tcp "unbound.conf" ∈
        (config "unbound.conf" (some "no such file or directory") none).calls) := by
  decide

/-- C9 (amended): setOption always attempts both contexts, ignoring the
UDP outcome; config and setAnchor attempt the UDP context first and abort
with an error naming the file and the UDP context when it fails, reaching
the TCP context only after UDP success. In all three operations a TCP
failure — necessarily after UDP succeeded for config and setAnchor, and
regardless of the UDP outcome for setOption — yields a non-nil error
naming the option key and value or the file path and carrying the
underlying cause; no rollback call is ever made. -/
theorem c9_amended (k v f e : String) (udpErr tcpErr : Option String) :
    ((setOption k v udpErr (some e)).err =
      some ("failed to set option \"" ++ (k ++ ":") ++ "\" with value \"" ++ v
        ++ "\": " ++ e)) ∧
    ((setOption k v udpErr (some e)).calls =
      [CtxCall.setOption Transport.udp (k ++ ":") v,
       CtxCall.setOption Transport.tcp (k ++ ":") v]) ∧
    ((config f none (some e)).err =
      some ("failed to read config file (" ++ f ++ ") TCP context: " ++ e)) ∧
    ((config f none (some e)).calls =
      [CtxCall.loadConfig Transport.udp f, CtxCall.loadConfig Transport.tcp f]) ∧
    ((config f (some e) tcpErr).err =
      some ("failed to read config file (" ++ f ++ ") UDP context: " ++ e)) ∧
    ((config f (some e) tcpErr).calls = [CtxCall.loadConfig Transport.udp f]) ∧
    ((setAnchor f none (some e)).err =
      some ("failed to read trust anchor file (" ++ f ++ ") TCP context: " ++ e)) ∧
    ((setAnchor f none (some e)).calls =
      [CtxCall.addTaFile Transport.udp f, CtxCall.addTaFile Transport.tcp f]) ∧
    ((setAnchor f (some e) tcpErr).calls = [CtxCall.addTaFile Transport.udp f]) := by
  cases udpErr <;> simp [setOption, config, setAnchor]

/-- C10: a UDP-context SetOption failure is silently discarded: setOption
still calls both contexts and returns nil when the TCP context accepts the
option, and New always produces the plugin value — option failures during
construction surface only as warnings, never as an error. -/
theorem c10_udp_error_discarded (k v e : String)
    (optErrs : String → Option String × Option String) :
    ((setOption k v (some e) none).err = none) ∧
    ((setOption k v (some e) none).calls =
      [CtxCall.setOption Transport.udp (k ++ ":") v,
       CtxCall.setOption Transport.tcp (k ++ ":") v]) ∧
    ((New optErrs).u = { fromZones := [], except := [], strict := false }) ∧
    ((New (fun _ => (none, some e))).warnings =
      ["Could not set option: " ++
         ("failed to set option \"msg-cache-size:\" with value \"0\": " ++ e),
       "Could not set option: " ++
         ("failed to set option \"rrset-cache-size:\" with value \"0\": " ++ e)]) := by
  refine ⟨rfl, rfl, rfl, ?_⟩
  simp [New, optionsList, setOption]

end UB
